import Mathlib

/-!
Verification of `python/xgrammar/cuda/apply_token_mask_inplace.py`: the CUDA
kernel `ApplyTokenBitmaskInplaceKernel`, the host entry point
`apply_token_bitmask_inplace` (validation, launch-plan derivation), and the
compiled-artifact cache `KernelStore`.

Modelling conventions:
* 32-bit floats are modelled by the inductive `F32`; the kernel only ever
  writes the distinguished value `F32.neginf`, so no floating-point
  arithmetic is needed.
* A mask word (C `int32_t`) is modelled by its 32-bit pattern as a `Nat`.
  The C loop tests `bitmask_val & 1` and then does `bitmask_val >>= 1`;
  for bit positions `0..31` the bit seen by `& 1` after `k` shifts is bit
  `k` of the original 32-bit pattern, for both arithmetic and logical
  shift, so `Nat` logical shift is a faithful model of the tested bits.
* Device buffers are flat `List`s indexed by the same linear offsets the
  pointer arithmetic of the kernel produces; an in-place store is
  `List.set`.
* The grid of threads is modelled by folding the per-thread body over
  `gid = 0, 1, ..., numThreads-1`.  Distinct threads write disjoint logits
  ranges (each owns one 32-wide slice), so the sequential fold computes
  the same final buffer as the parallel execution.
-/

namespace XGrammar

/-- Model of a 32-bit float value.  The kernel writes only `neginf`;
`finite v` is any finite float.  Constructor disjointness captures that
negative infinity is not a finite value. -/
inductive F32 where
  | finite (val : Int)
  | neginf
  | posinf
  | nan
deriving DecidableEq, Repr

/-- C macro `BITS_PER_BLOCK 32` / Python `BITS_PER_BLOCK = 32`. -/
def BITS_PER_BLOCK : Nat := 32

/-- Python `THREADS_PER_BLOCK = 512` (and `__launch_bounds__(512)`). -/
def THREADS_PER_BLOCK : Nat := 512

/-- The bit loop of `ApplyTokenBitmaskInplaceKernel`:

```
for (int i = 0; i < BITS_PER_BLOCK; ++i) {
  if (bitmask_id * BITS_PER_BLOCK + i >= vocab_size) break;
  if ((bitmask_val & 1) == 0) logits_ptr[i] = -inf;
  bitmask_val >>= 1;
}
```

`base` is the linear offset of `logits_ptr` in the flat buffer; `fuel` is
the number of remaining iterations (`BITS_PER_BLOCK - i`). -/
def kernelBitLoop (vocab_size bitmask_id base : Nat) :
    Nat → Nat → Nat → List F32 → List F32
  | _, _, 0, logits => logits
  | bitmask_val, i, fuel + 1, logits =>
    if bitmask_id * BITS_PER_BLOCK + i ≥ vocab_size then
      logits
    else
      kernelBitLoop vocab_size bitmask_id base (bitmask_val >>> 1) (i + 1) fuel
        (if bitmask_val &&& 1 = 0 then logits.set (base + i) F32.neginf else logits)

/-- One thread of `ApplyTokenBitmaskInplaceKernel` with global id `gid`:

```
if (gid >= bitmask_size) return;
int32_t batch_id = gid / bitmask_row_size;
int32_t bitmask_id = gid % bitmask_row_size;
int32_t bitmask_val = bitmask[gid];
float* logits_ptr = logits + batch_id * vocab_size + bitmask_id * BITS_PER_BLOCK;
<bit loop>
```
-/
def kernelThread (vocab_size bitmask_size bitmask_row_size : Nat)
    (bitmask : List Nat) (gid : Nat) (logits : List F32) : List F32 :=
  if gid ≥ bitmask_size then
    logits
  else
    let batch_id := gid / bitmask_row_size
    let bitmask_id := gid % bitmask_row_size
    let bitmask_val := bitmask.getD gid 0
    kernelBitLoop vocab_size bitmask_id
      (batch_id * vocab_size + bitmask_id * BITS_PER_BLOCK) bitmask_val 0
      BITS_PER_BLOCK logits

/-- The whole kernel launch: `numThreads` threads (grid size × block size),
each running `kernelThread` on its global id.  Threads touch pairwise
disjoint logits slices, so the sequential fold models the parallel
execution. -/
def ApplyTokenBitmaskInplaceKernel (numThreads vocab_size bitmask_size bitmask_row_size : Nat)
    (bitmask : List Nat) (logits : List F32) : List F32 :=
  (List.range numThreads).foldl
    (fun lg gid => kernelThread vocab_size bitmask_size bitmask_row_size bitmask gid lg)
    logits

/-- Torch dtype tags relevant to the entry point's validation. -/
inductive DType where
  | float32
  | float16
  | float64
  | int32
  | int64
  | int16
deriving DecidableEq, Repr

/-- Rendering of a dtype the way `str(tensor.dtype)` renders it in the
error messages. -/
def DType.toTorchString : DType → String
  | .float32 => "torch.float32"
  | .float16 => "torch.float16"
  | .float64 => "torch.float64"
  | .int32 => "torch.int32"
  | .int64 => "torch.int64"
  | .int16 => "torch.int16"

/-- The face a torch tensor presents to `apply_token_bitmask_inplace`:
shape, dtype, contiguity flag, base address, device index. -/
structure TensorDesc where
  shape : List Nat
  dtype : DType
  contiguous : Bool
  data_ptr : Nat
  device_index : Nat
deriving DecidableEq, Repr

/-- Wrap a nonnegative integer as `ctypes.c_int32` does (two's complement,
32 bits). -/
def c_int32_wrap (n : Nat) : Int :=
  ((n % 2 ^ 32 : Nat) : Int) - (if 2 ^ 31 ≤ n % 2 ^ 32 then (2 ^ 32 : Int) else 0)

/-- Wrap a nonnegative integer as `ctypes.c_int64` does (two's complement,
64 bits). -/
def c_int64_wrap (n : Nat) : Int :=
  ((n % 2 ^ 64 : Nat) : Int) - (if 2 ^ 63 ≤ n % 2 ^ 64 then (2 ^ 64 : Int) else 0)

/-- One marshalled kernel argument, tagged with its ctypes width. -/
inductive KernelArg where
  | c_void_p (addr : Nat)
  | c_int32 (v : Int)
  | c_int64 (v : Int)
deriving DecidableEq, Repr

/-- The launch parameters derived by `apply_token_bitmask_inplace` for one
call: the sizes it computed, the grid/block dimensions, the marshalled
argument list, and the device index passed to `KernelStore.compile`.
`bitmask_size` is the host-side name for the number of mask words per row
(`ceil(vocab_size / 32)`), exactly as in the source. -/
structure LaunchPlan where
  batch_size : Nat
  vocab_size : Nat
  bitmask_size : Nat
  grid_dims : Nat × Nat × Nat
  block_dims : Nat × Nat × Nat
  kernelArgs : List KernelArg
  device_index : Nat
deriving DecidableEq, Repr

/-- Validation and launch-plan derivation shared by both ranks, mirroring
the source after the shape destructuring (dtype checks, contiguity check,
grid/block computation, argument marshalling). -/
def validateAndPlan (batch_size vocab_size : Nat) (logits bitmask : TensorDesc) :
    Except String LaunchPlan :=
  let bitmask_size := (vocab_size + BITS_PER_BLOCK - 1) / BITS_PER_BLOCK
  if logits.dtype ≠ DType.float32 then
    .error ("The logits tensor is expected to have dtype torch.float32. " ++
      "However the input logits has dtype " ++ logits.dtype.toTorchString)
  else if bitmask.dtype ≠ DType.int32 then
    -- NOTE: the source interpolates `logits.dtype` here, not `bitmask.dtype`:
    -- `f"However the input bitmask has dtype {logits.dtype}"`.
    .error ("The bitmask tensor is expected to have dtype torch.int32. " ++
      "However the input bitmask has dtype " ++ logits.dtype.toTorchString)
  else if ¬ logits.contiguous ∨ ¬ bitmask.contiguous then
    .error ("The logits and bitmask tensors are expected to be contiguous in memory.")
  else
    .ok
      ⟨batch_size, vocab_size, bitmask_size,
        ((batch_size * bitmask_size + THREADS_PER_BLOCK - 1) / THREADS_PER_BLOCK, 1, 1),
        (THREADS_PER_BLOCK, 1, 1),
        [KernelArg.c_void_p logits.data_ptr,
          KernelArg.c_void_p bitmask.data_ptr,
          KernelArg.c_int32 (c_int32_wrap vocab_size),
          KernelArg.c_int64 (c_int64_wrap (batch_size * bitmask_size)),
          KernelArg.c_int32 (c_int32_wrap bitmask_size)],
        logits.device_index⟩

/-- Host entry point `apply_token_bitmask_inplace(logits, bitmask)` up to the point of the
device calls: availability check, shape destructuring, validation, and
launch-plan derivation.  `cuda_available` models whether
`from cuda import cuda, cudart, nvrtc` succeeded. -/
def apply_token_bitmask_inplace (cuda_available : Bool) (logits bitmask : TensorDesc) :
    Except String LaunchPlan :=
  if ¬ cuda_available then
    .error ("CUDA dependencies are not installed. Please follow " ++
      "https://xgrammar.mlc.ai/docs/start/install to install CUDA dependency.")
  else
    match logits.shape with
    | [batch_size, vocab_size] => validateAndPlan batch_size vocab_size logits bitmask
    | [vocab_size] => validateAndPlan 1 vocab_size logits bitmask
    | _ => .error ("Invalid logits tensor shape " ++ toString logits.shape)

/-- A call into the device layer, in issue order. -/
inductive DeviceCall where
  | compile (device_id : Nat)
  | launch (p : LaunchPlan)
deriving DecidableEq, Repr

/-- The device calls issued by one invocation of
`apply_token_bitmask_inplace`: none when validation raises (the source
raises before `KernelStore.compile`), otherwise the compile request
followed by the kernel launch. -/
def deviceTrace (cuda_available : Bool) (logits bitmask : TensorDesc) : List DeviceCall :=
  match apply_token_bitmask_inplace cuda_available logits bitmask with
  | .error _ => []
  | .ok p => [DeviceCall.compile p.device_index, DeviceCall.launch p]

/-- End-to-end semantics of one call on the underlying buffers: validate,
derive the plan, and run the kernel with `grid.x * block.x` threads and
the marshalled sizes (`vocab_size`, `batch_size * bitmask_size`,
`bitmask_size`). -/
def apply_token_bitmask_inplace_run (cuda_available : Bool) (logits bitmask : TensorDesc)
    (logitsData : List F32) (bitmaskData : List Nat) : Except String (List F32) :=
  match apply_token_bitmask_inplace cuda_available logits bitmask with
  | .error e => .error e
  | .ok p =>
    .ok (ApplyTokenBitmaskInplaceKernel (p.grid_dims.1 * THREADS_PER_BLOCK)
      p.vocab_size (p.batch_size * p.bitmask_size) p.bitmask_size bitmaskData logitsData)

/-- The logits buffer after one call: unchanged when the call raised. -/
def finalLogits (cuda_available : Bool) (logits bitmask : TensorDesc)
    (logitsData : List F32) (bitmaskData : List Nat) : List F32 :=
  match apply_token_bitmask_inplace_run cuda_available logits bitmask logitsData bitmaskData with
  | .error _ => logitsData
  | .ok out => out

/-- The outcome of each fallible CUDA API step used by `KernelStore.compile`,
so the control flow of the compile pipeline can be run against any outcome.
Handles (program, module, function) are opaque `Nat`s.
`cudaHomeResolution` abstracts the whole CUDA-home search (environment
variables, `nvcc` location, conventional paths): `none` means no candidate
resolved. -/
structure CudaEnv where
  nvrtcCreateProgram : Except String Nat
  cudaHomeResolution : Option String
  cudaFree : Except String Unit
  computeCapabilityMajor : Nat → Except String Nat
  computeCapabilityMinor : Nat → Except String Nat
  nvrtcCompileProgram : Except String Unit
  nvrtcGetPTX : Except String String
  cuModuleLoadData : Except String Nat
  cuModuleGetFunction : Nat → Except String Nat

/-- The class attributes of `KernelStore`: `_module` and `_func`. -/
structure KernelStoreState where
  module : Option Nat
  func : Option Nat
deriving DecidableEq, Repr

/-- Initial class attributes: `_module = None`, `_func = None`. -/
def KernelStore.initial : KernelStoreState := ⟨none, none⟩

/-- The body of `KernelStore.compile` past the cache check, in source
order: create the program, resolve CUDA home (raising if none found),
initialize CUDA, query the device's compute capability, compile (raising
`CUDA kernel compilation failure` on error), extract the PTX, load the
module and resolve the kernel function.  Any raised error propagates; the
class attributes are assigned only after every step succeeded. -/
def compilePipeline (env : CudaEnv) (device_id : Nat) : Except String (Nat × Nat) := do
  let _prog ← env.nvrtcCreateProgram
  match env.cudaHomeResolution with
  | none =>
    Except.error ("Cannot find CUDA home from the candidate paths. " ++
      "You can specify the CUDA home via environment variable CUDA_HOME " ++
      "after installing CUDA.")
  | some _CUDA_HOME => do
    let _ ← env.cudaFree
    let _major ← env.computeCapabilityMajor device_id
    let _minor ← env.computeCapabilityMinor device_id
    match env.nvrtcCompileProgram with
    | .error _err => Except.error ("CUDA kernel compilation failure")
    | .ok _ => do
      let _data ← env.nvrtcGetPTX
      let module ← env.cuModuleLoadData
      let func ← env.cuModuleGetFunction module
      return (module, func)

/-- Result of one `KernelStore.compile` call: the returned handle or the
raised error, the class attributes afterwards, and whether the call went
past the cache check (i.e. attempted compilation). -/
structure CompileOutput where
  result : Except String Nat
  state : KernelStoreState
  attempted : Bool
deriving Repr

/-- Model of `KernelStore.compile(device_id)`: if `cls._func is not None` return it
at once (the `device_id` argument is not consulted); otherwise run the
compile pipeline and, only on success, store `cls._module` and
`cls._func`. -/
def KernelStore.compile (env : CudaEnv) (s : KernelStoreState) (device_id : Nat) :
    CompileOutput :=
  match s.func with
  | some f => ⟨.ok f, s, false⟩
  | none =>
    match compilePipeline env device_id with
    | .error e => ⟨.error e, s, true⟩
    | .ok (module, func) => ⟨.ok func, ⟨some module, some func⟩, true⟩

/-- Run a sequence of `KernelStore.compile` calls (one per masking call),
threading the class state; returns the final state and how many calls
attempted compilation. -/
def runCompileCalls (env : CudaEnv) : KernelStoreState → List Nat → KernelStoreState × Nat
  | s, [] => (s, 0)
  | s, d :: ds =>
    let out := KernelStore.compile env s d
    let rest := runCompileCalls env out.state ds
    (rest.1, (if out.attempted then 1 else 0) + rest.2)

/-- The set of logits positions thread `gid` overwrites with `-inf`
(given any buffer long enough): `gid` must pass the bounds check, and the
position is `batch_id * vocab_size + bitmask_id * 32 + k` for a bit `k`
that is reached before the tail break and is 0 in the thread's mask
word. -/
def threadWrites (vocab_size bitmask_size bitmask_row_size : Nat) (bitmask : List Nat)
    (gid j : Nat) : Prop :=
  gid < bitmask_size ∧ ∃ k, k < 32 ∧
    j = (gid / bitmask_row_size) * vocab_size + (gid % bitmask_row_size) * 32 + k ∧
    (gid % bitmask_row_size) * 32 + k < vocab_size ∧
    (bitmask.getD gid 0 >>> k) &&& 1 = 0

instance (vocab_size bitmask_size bitmask_row_size : Nat) (bitmask : List Nat)
    (gid j : Nat) :
    Decidable (threadWrites vocab_size bitmask_size bitmask_row_size bitmask gid j) := by
  unfold threadWrites
  infer_instance

/-- A `CudaEnv` in which every CUDA API step succeeds. -/
def envAllOk : CudaEnv :=
  ⟨.ok 1, some ("/usr/local/cuda"), .ok (), fun _ => .ok 8, fun _ => .ok 0, .ok (),
    .ok ("ptx"), .ok 5, fun _ => .ok 7⟩

/-- A `CudaEnv` in which the very first CUDA API step fails. -/
def envCreateFail : CudaEnv :=
  ⟨.error ("nvrtcCreateProgram failed"), some ("/usr/local/cuda"), .ok (),
    fun _ => .ok 8, fun _ => .ok 0, .ok (), .ok ("ptx"), .ok 5, fun _ => .ok 7⟩

end XGrammar

namespace XGrammar


lemma kernelBitLoop_length (vocab_size bitmask_id base : Nat) :
    ∀ (fuel i bitmask_val : Nat) (logits : List F32),
      (kernelBitLoop vocab_size bitmask_id base bitmask_val i fuel logits).length =
        logits.length := by
  intro fuel
  induction fuel with
  | zero => intro i bitmask_val logits; simp [kernelBitLoop]
  | succ fuel ih =>
    intro i bitmask_val logits
    rw [kernelBitLoop]
    by_cases hbreak : bitmask_id * BITS_PER_BLOCK + i ≥ vocab_size
    · rw [if_pos hbreak]
    · rw [if_neg hbreak, ih]
      by_cases hbit : bitmask_val &&& 1 = 0
      · rw [if_pos hbit, List.length_set]
      · rw [if_neg hbit]

lemma kernelBitLoop_getElem? (vocab_size bitmask_id base : Nat) :
    ∀ (fuel i bitmask_val : Nat) (logits : List F32) (j : Nat),
      (kernelBitLoop vocab_size bitmask_id base bitmask_val i fuel logits)[j]? =
        if ∃ k, k < fuel ∧ j = base + (i + k) ∧
            bitmask_id * 32 + (i + k) < vocab_size ∧
            (bitmask_val >>> k) &&& 1 = 0 ∧ j < logits.length
        then some F32.neginf else logits[j]? := by
  intro fuel
  induction fuel with
  | zero =>
    intro i bitmask_val logits j
    rw [kernelBitLoop, if_neg]
    rintro ⟨k, hk, -⟩
    omega
  | succ fuel ih =>
    intro i bitmask_val logits j
    rw [kernelBitLoop]
    by_cases hbreak : bitmask_id * BITS_PER_BLOCK + i ≥ vocab_size
    · rw [if_pos hbreak, if_neg]
      rintro ⟨k, -, -, hlt, -⟩
      rw [BITS_PER_BLOCK] at hbreak
      omega
    · rw [if_neg hbreak, ih]
      rw [BITS_PER_BLOCK] at hbreak
      push_neg at hbreak
      by_cases hbit : bitmask_val &&& 1 = 0
      · rw [if_pos hbit]
        by_cases hex : ∃ k, k < fuel ∧ j = base + (i + 1 + k) ∧
            bitmask_id * 32 + (i + 1 + k) < vocab_size ∧
            ((bitmask_val >>> 1) >>> k) &&& 1 = 0 ∧
            j < (logits.set (base + i) F32.neginf).length
        · rw [if_pos hex, if_pos]
          obtain ⟨k, hk, hj, hlt, hb, hlen⟩ := hex
          rw [List.length_set] at hlen
          refine ⟨k + 1, by omega, by omega, by omega, ?_, hlen⟩
          rw [show k + 1 = 1 + k by omega, Nat.shiftRight_add]
          exact hb
        · rw [if_neg hex]
          by_cases hj : j = base + i
          · subst hj
            by_cases hlen : base + i < logits.length
            · rw [List.getElem?_set_self hlen, if_pos]
              exact ⟨0, by omega, by omega, by omega, by simpa using hbit, hlen⟩
            · rw [if_neg]
              · rw [List.getElem?_set]
                rw [if_pos rfl, if_neg hlen]
                rw [List.getElem?_eq_none (by omega)]
              · rintro ⟨k, -, -, -, -, hl⟩
                omega
          · rw [List.getElem?_set_ne (fun h => hj h.symm), if_neg]
            rintro ⟨k, hk, hjk, hlt, hb, hlen⟩
            rcases Nat.eq_zero_or_pos k with rfl | hkpos
            · exact hj (by omega)
            · refine hex ⟨k - 1, by omega, by omega, by omega, ?_, by
                rw [List.length_set]; exact hlen⟩
              rw [← Nat.shiftRight_add, show 1 + (k - 1) = k by omega]
              exact hb
      · rw [if_neg hbit]
        refine if_congr ⟨?_, ?_⟩ rfl rfl
        · rintro ⟨k, hk, hj, hlt, hb, hlen⟩
          refine ⟨k + 1, by omega, by omega, by omega, ?_, hlen⟩
          rw [show k + 1 = 1 + k by omega, Nat.shiftRight_add]
          exact hb
        · rintro ⟨k, hk, hj, hlt, hb, hlen⟩
          rcases Nat.eq_zero_or_pos k with rfl | hkpos
          · exact absurd (by simpa using hb) hbit
          · refine ⟨k - 1, by omega, by omega, by omega, ?_, hlen⟩
            rw [← Nat.shiftRight_add, show 1 + (k - 1) = k by omega]
            exact hb

lemma kernelThread_length (vocab_size bitmask_size bitmask_row_size : Nat)
    (bitmask : List Nat) (gid : Nat) (logits : List F32) :
    (kernelThread vocab_size bitmask_size bitmask_row_size bitmask gid logits).length =
      logits.length := by
  rw [kernelThread]
  by_cases hgid : gid ≥ bitmask_size
  · rw [if_pos hgid]
  · rw [if_neg hgid]
    exact kernelBitLoop_length _ _ _ _ _ _ _

lemma kernelThread_getElem? (vocab_size bitmask_size bitmask_row_size : Nat)
    (bitmask : List Nat) (gid : Nat) (logits : List F32) (j : Nat) :
    (kernelThread vocab_size bitmask_size bitmask_row_size bitmask gid logits)[j]? =
      if threadWrites vocab_size bitmask_size bitmask_row_size bitmask gid j ∧
          j < logits.length
      then some F32.neginf else logits[j]? := by
  rw [kernelThread]
  by_cases hgid : gid ≥ bitmask_size
  · rw [if_pos hgid, if_neg]
    rintro ⟨⟨h1, -⟩, -⟩
    omega
  · rw [if_neg hgid]
    rw [kernelBitLoop_getElem?]
    refine if_congr ⟨?_, ?_⟩ rfl rfl
    · rintro ⟨k, hk, hj, hlt, hb, hlen⟩
      rw [BITS_PER_BLOCK] at hk hj
      exact ⟨⟨by omega, k, by omega, by omega, by omega, hb⟩, hlen⟩
    · rintro ⟨⟨-, k, hk, hj, hlt, hb⟩, hlen⟩
      rw [BITS_PER_BLOCK]
      exact ⟨k, by omega, by omega, by omega, hb, hlen⟩

lemma foldl_kernelThread_getElem? (vocab_size bitmask_size bitmask_row_size : Nat)
    (bitmask : List Nat) :
    ∀ (gids : List Nat) (logits : List F32) (j : Nat),
      (gids.foldl
          (fun lg gid => kernelThread vocab_size bitmask_size bitmask_row_size bitmask gid lg)
          logits)[j]? =
        if (∃ gid ∈ gids, threadWrites vocab_size bitmask_size bitmask_row_size bitmask gid j) ∧
            j < logits.length
        then some F32.neginf else logits[j]? := by
  intro gids
  induction gids with
  | nil =>
    intro logits j
    rw [List.foldl_nil, if_neg]
    rintro ⟨⟨gid, hmem, -⟩, -⟩
    simp at hmem
  | cons g gs ih =>
    intro logits j
    rw [List.foldl_cons, ih, kernelThread_length]
    by_cases hlen : j < logits.length
    · by_cases hgs : ∃ gid ∈ gs, threadWrites vocab_size bitmask_size bitmask_row_size bitmask gid j
      · rw [if_pos ⟨hgs, hlen⟩, if_pos]
        obtain ⟨gid, hmem, hw⟩ := hgs
        exact ⟨⟨gid, List.mem_cons_of_mem g hmem, hw⟩, hlen⟩
      · rw [if_neg (fun h => hgs h.1), kernelThread_getElem?]
        by_cases hg : threadWrites vocab_size bitmask_size bitmask_row_size bitmask g j
        · rw [if_pos ⟨hg, hlen⟩, if_pos ⟨⟨g, List.mem_cons_self g gs, hg⟩, hlen⟩]
        · rw [if_neg (fun h => hg h.1), if_neg]
          rintro ⟨⟨gid, hmem, hw⟩, -⟩
          rcases List.mem_cons.mp hmem with rfl | hmem2
          · exact hg hw
          · exact hgs ⟨gid, hmem2, hw⟩
    · rw [if_neg (fun h => hlen h.2), if_neg (fun h => hlen h.2), kernelThread_getElem?]
      rw [if_neg (fun h => hlen h.2)]

lemma kernel_length (numThreads vocab_size bitmask_size bitmask_row_size : Nat)
    (bitmask : List Nat) (logits : List F32) :
    (ApplyTokenBitmaskInplaceKernel numThreads vocab_size bitmask_size bitmask_row_size
        bitmask logits).length = logits.length := by
  rw [ApplyTokenBitmaskInplaceKernel]
  generalize List.range numThreads = gids
  induction gids generalizing logits with
  | nil => rw [List.foldl_nil]
  | cons g gs ih => rw [List.foldl_cons, ih, kernelThread_length]

lemma kernel_getElem? (numThreads vocab_size bitmask_size bitmask_row_size : Nat)
    (bitmask : List Nat) (logits : List F32) (j : Nat) :
    (ApplyTokenBitmaskInplaceKernel numThreads vocab_size bitmask_size bitmask_row_size
        bitmask logits)[j]? =
      if (∃ gid, gid < numThreads ∧
            threadWrites vocab_size bitmask_size bitmask_row_size bitmask gid j) ∧
          j < logits.length
      then some F32.neginf else logits[j]? := by
  rw [ApplyTokenBitmaskInplaceKernel, foldl_kernelThread_getElem?]
  refine if_congr ⟨?_, ?_⟩ rfl rfl
  · rintro ⟨⟨gid, hmem, hw⟩, hlen⟩
    exact ⟨⟨gid, List.mem_range.mp hmem, hw⟩, hlen⟩
  · rintro ⟨⟨gid, hlt, hw⟩, hlen⟩
    exact ⟨⟨gid, List.mem_range.mpr hlt, hw⟩, hlen⟩

lemma validateAndPlan_ok_inv {batch_size vocab_size : Nat} {logits bitmask : TensorDesc}
    {p : LaunchPlan}
    (h : validateAndPlan batch_size vocab_size logits bitmask = .ok p) :
    logits.dtype = DType.float32 ∧ bitmask.dtype = DType.int32 ∧
    logits.contiguous = true ∧ bitmask.contiguous = true ∧
    p = ⟨batch_size, vocab_size, (vocab_size + 31) / 32,
        ((batch_size * ((vocab_size + 31) / 32) + 511) / 512, 1, 1),
        (512, 1, 1),
        [KernelArg.c_void_p logits.data_ptr, KernelArg.c_void_p bitmask.data_ptr,
          KernelArg.c_int32 (c_int32_wrap vocab_size),
          KernelArg.c_int64 (c_int64_wrap (batch_size * ((vocab_size + 31) / 32))),
          KernelArg.c_int32 (c_int32_wrap ((vocab_size + 31) / 32))],
        logits.device_index⟩ := by
  rw [validateAndPlan] at h
  simp only [BITS_PER_BLOCK, THREADS_PER_BLOCK] at h
  by_cases h1 : logits.dtype ≠ DType.float32
  · rw [if_pos h1] at h; exact absurd h (by simp)
  · rw [if_neg h1] at h
    by_cases h2 : bitmask.dtype ≠ DType.int32
    · rw [if_pos h2] at h; exact absurd h (by simp)
    · rw [if_neg h2] at h
      by_cases h3 : ¬ logits.contiguous ∨ ¬ bitmask.contiguous
      · rw [if_pos h3] at h; exact absurd h (by simp)
      · rw [if_neg h3] at h
        push_neg at h1 h2 h3
        refine ⟨h1, h2, by simpa using h3.1, by simpa using h3.2, ?_⟩
        injection h with h
        exact h.symm

lemma apply_ok_inv {ca : Bool} {logits bitmask : TensorDesc} {p : LaunchPlan}
    (h : apply_token_bitmask_inplace ca logits bitmask = .ok p) :
    ca = true ∧
    (logits.shape = [p.batch_size, p.vocab_size] ∨
      (logits.shape = [p.vocab_size] ∧ p.batch_size = 1)) ∧
    logits.dtype = DType.float32 ∧ bitmask.dtype = DType.int32 ∧
    logits.contiguous = true ∧ bitmask.contiguous = true ∧
    p.bitmask_size = (p.vocab_size + 31) / 32 ∧
    p.grid_dims = ((p.batch_size * p.bitmask_size + 511) / 512, 1, 1) ∧
    p.block_dims = (512, 1, 1) ∧
    p.kernelArgs = [KernelArg.c_void_p logits.data_ptr, KernelArg.c_void_p bitmask.data_ptr,
      KernelArg.c_int32 (c_int32_wrap p.vocab_size),
      KernelArg.c_int64 (c_int64_wrap (p.batch_size * p.bitmask_size)),
      KernelArg.c_int32 (c_int32_wrap p.bitmask_size)] ∧
    p.device_index = logits.device_index := by
  rw [apply_token_bitmask_inplace] at h
  by_cases hca : ca = true
  · rw [if_neg (by simp [hca])] at h
    refine ⟨hca, ?_⟩
    split at h
    case _ batch_size vocab_size hs =>
      rcases validateAndPlan_ok_inv h with ⟨h1, h2, h3, h4, rfl⟩
      exact ⟨Or.inl hs, h1, h2, h3, h4, rfl, rfl, rfl, rfl, rfl⟩
    case _ vocab_size hs =>
      rcases validateAndPlan_ok_inv h with ⟨h1, h2, h3, h4, rfl⟩
      exact ⟨Or.inr ⟨hs, rfl⟩, h1, h2, h3, h4, rfl, rfl, rfl, rfl, rfl⟩
    case _ =>
      exact absurd h (by simp)
  · rw [if_pos hca] at h
    exact absurd h (by simp)

lemma validateAndPlan_congr_logits {batch_size vocab_size : Nat} {lg1 lg2 bm : TensorDesc}
    (hd : lg1.dtype = lg2.dtype) (hc : lg1.contiguous = lg2.contiguous)
    (hp : lg1.data_ptr = lg2.data_ptr) (hdev : lg1.device_index = lg2.device_index) :
    validateAndPlan batch_size vocab_size lg1 bm =
      validateAndPlan batch_size vocab_size lg2 bm := by
  rw [validateAndPlan, validateAndPlan, hd, hc, hp, hdev]

lemma validateAndPlan_congr_bitmask {batch_size vocab_size : Nat} {lg bm1 bm2 : TensorDesc}
    (hd : bm1.dtype = bm2.dtype) (hc : bm1.contiguous = bm2.contiguous)
    (hp : bm1.data_ptr = bm2.data_ptr) :
    validateAndPlan batch_size vocab_size lg bm1 =
      validateAndPlan batch_size vocab_size lg bm2 := by
  rw [validateAndPlan, validateAndPlan, hd, hc, hp]

/-- Claim C6: a rank-1 logits tensor of shape `[vocab_size]` produces
exactly the same result as the equivalent rank-2 tensor of shape
`[1, vocab_size]`, for every vocabulary size, logits content and bitmask
content. -/
theorem rank1_rank2_same_result (ca : Bool) (vocab_size : Nat) (lg1 lg2 bm : TensorDesc)
    (h1 : lg1.shape = [vocab_size]) (h2 : lg2.shape = [1, vocab_size])
    (hd : lg1.dtype = lg2.dtype) (hc : lg1.contiguous = lg2.contiguous)
    (hp : lg1.data_ptr = lg2.data_ptr) (hdev : lg1.device_index = lg2.device_index)
    (logitsData : List F32) (bitmaskData : List Nat) :
    apply_token_bitmask_inplace_run ca lg1 bm logitsData bitmaskData =
      apply_token_bitmask_inplace_run ca lg2 bm logitsData bitmaskData := by
  have hplan : apply_token_bitmask_inplace ca lg1 bm =
      apply_token_bitmask_inplace ca lg2 bm := by
    rw [apply_token_bitmask_inplace, apply_token_bitmask_inplace, h1, h2]
    by_cases hca : ca = true
    · simp only [hca, not_true, if_neg, ite_false]
      exact validateAndPlan_congr_logits hd hc hp hdev
    · simp only [Bool.not_eq_true] at hca
      simp [hca]
  rw [apply_token_bitmask_inplace_run, apply_token_bitmask_inplace_run, hplan]

/-- Claim C5: masking is idempotent — applying the same bitmask twice
yields exactly the same final logits as applying it once. -/
theorem kernel_idempotent (numThreads vocab_size bitmask_size bitmask_row_size : Nat)
    (bitmask : List Nat) (logits : List F32) :
    ApplyTokenBitmaskInplaceKernel numThreads vocab_size bitmask_size bitmask_row_size
        bitmask
        (ApplyTokenBitmaskInplaceKernel numThreads vocab_size bitmask_size bitmask_row_size
          bitmask logits) =
      ApplyTokenBitmaskInplaceKernel numThreads vocab_size bitmask_size bitmask_row_size
        bitmask logits := by
  apply List.ext_getElem?
  intro j
  rw [kernel_getElem?, kernel_getElem?, kernel_length]
  by_cases h : (∃ gid, gid < numThreads ∧
      threadWrites vocab_size bitmask_size bitmask_row_size bitmask gid j) ∧
      j < logits.length
  · rw [if_pos h, if_pos h]
  · rw [if_neg h, if_neg h]

/-- Claim C2: every input failing validation (bad rank, bad dtype of
either tensor, or a non-contiguous tensor) makes the call raise before
any device interaction: the result is an error, the device-call trace is
empty, and the logits buffer is unchanged. -/
theorem invalid_input_no_device_interaction (ca : Bool) (logits bitmask : TensorDesc)
    (logitsData : List F32) (bitmaskData : List Nat)
    (h : (logits.shape.length ≠ 1 ∧ logits.shape.length ≠ 2) ∨
      logits.dtype ≠ DType.float32 ∨ bitmask.dtype ≠ DType.int32 ∨
      logits.contiguous = false ∨ bitmask.contiguous = false) :
    (∃ e, apply_token_bitmask_inplace ca logits bitmask = .error e) ∧
    deviceTrace ca logits bitmask = [] ∧
    finalLogits ca logits bitmask logitsData bitmaskData = logitsData := by
  have herr : ∃ e, apply_token_bitmask_inplace ca logits bitmask = .error e := by
    cases happ : apply_token_bitmask_inplace ca logits bitmask with
    | error e => exact ⟨e, rfl⟩
    | ok p =>
      obtain ⟨-, hshape, hdt, hbt, hcont, hbcont, -⟩ := apply_ok_inv happ
      rcases h with ⟨hl1, hl2⟩ | hx | hx | hx | hx
      · rcases hshape with hs | ⟨hs, -⟩
        · rw [hs] at hl2; simp at hl2
        · rw [hs] at hl1; simp at hl1
      · exact absurd hdt hx
      · exact absurd hbt hx
      · rw [hcont] at hx; simp at hx
      · rw [hbcont] at hx; simp at hx
  obtain ⟨e, he⟩ := herr
  refine ⟨⟨e, he⟩, ?_, ?_⟩
  · rw [deviceTrace, he]
  · rw [finalLogits, apply_token_bitmask_inplace_run, he]

/-- Claim C3 (counterexample evidence): with float32 logits and an int64
bitmask, the bitmask dtype error message reports `torch.float32` — the
logits tensor's dtype — not the bitmask's actual dtype `torch.int64`.
The claim that the message names the offending tensor's own dtype is
violated by the code: the source interpolates `logits.dtype` into the
bitmask message. -/
theorem bitmask_dtype_error_reports_logits_dtype :
    (⟨[1], DType.int64, true, 100, 0⟩ : TensorDesc).dtype ≠ DType.float32 ∧
    apply_token_bitmask_inplace true
        ⟨[4], DType.float32, true, 0, 0⟩ ⟨[1], DType.int64, true, 100, 0⟩ =
      .error ("The bitmask tensor is expected to have dtype torch.int32. " ++
        "However the input bitmask has dtype torch.float32") :=
  ⟨by decide, by rfl⟩

/-- Claim C8: every successful call derives
`words_per_row = ceil(vocab_size / 32)`, grid dimensions
`(ceil(batch * words_per_row / 512), 1, 1)` with fixed block dimensions
`(512, 1, 1)`, and marshals exactly, in order: logits pointer, bitmask
pointer, `vocab_size` as 32-bit signed, `batch * words_per_row` as 64-bit
signed, `words_per_row` as 32-bit signed.  The ceiling divisions are also
characterised by their defining bounds. -/
theorem launch_plan_derivation (ca : Bool) (logits bitmask : TensorDesc) (p : LaunchPlan)
    (h : apply_token_bitmask_inplace ca logits bitmask = .ok p) :
    p.bitmask_size = (p.vocab_size + 32 - 1) / 32 ∧
    (p.vocab_size ≤ 32 * p.bitmask_size ∧ 32 * p.bitmask_size < p.vocab_size + 32) ∧
    p.grid_dims = ((p.batch_size * p.bitmask_size + 512 - 1) / 512, 1, 1) ∧
    (p.batch_size * p.bitmask_size ≤ 512 * p.grid_dims.1 ∧
      512 * p.grid_dims.1 < p.batch_size * p.bitmask_size + 512) ∧
    p.block_dims = (512, 1, 1) ∧
    p.kernelArgs = [KernelArg.c_void_p logits.data_ptr, KernelArg.c_void_p bitmask.data_ptr,
      KernelArg.c_int32 (c_int32_wrap p.vocab_size),
      KernelArg.c_int64 (c_int64_wrap (p.batch_size * p.bitmask_size)),
      KernelArg.c_int32 (c_int32_wrap p.bitmask_size)] := by
  obtain ⟨-, -, -, -, -, -, hbs, hgrid, hblock, hargs, -⟩ := apply_ok_inv h
  refine ⟨by omega, by constructor <;> omega, by rw [hgrid]; norm_num, ?_, hblock, hargs⟩
  rw [hgrid]
  constructor <;> omega

/-- Claim C10: the bitmask's shape and element count are never validated
against the logits shape — any int32, contiguous bitmask tensor at the
same address yields the same successful plan, whose word counts are
derived solely from the logits tensor's dimensions. -/
theorem bitmask_shape_not_validated (ca : Bool) (logits bitmask bitmask2 : TensorDesc)
    (p : LaunchPlan)
    (h : apply_token_bitmask_inplace ca logits bitmask = .ok p)
    (hd : bitmask2.dtype = DType.int32) (hc : bitmask2.contiguous = true)
    (hp : bitmask2.data_ptr = bitmask.data_ptr) :
    apply_token_bitmask_inplace ca logits bitmask2 = .ok p ∧
    p.bitmask_size = (p.vocab_size + 31) / 32 ∧
    (logits.shape = [p.batch_size, p.vocab_size] ∨
      (logits.shape = [p.vocab_size] ∧ p.batch_size = 1)) := by
  obtain ⟨hca, hshape, -, hbt, -, hbcont, hbs, -, -, -, -⟩ := apply_ok_inv h
  subst hca
  have hcong : apply_token_bitmask_inplace true logits bitmask2 =
      apply_token_bitmask_inplace true logits bitmask := by
    rw [apply_token_bitmask_inplace, apply_token_bitmask_inplace]
    simp only [not_true, if_neg, ite_false]
    rcases hshape with hs | ⟨hs, -⟩ <;> rw [hs] <;>
      exact validateAndPlan_congr_bitmask (hd.trans hbt.symm) (hc.trans hbcont.symm) hp
  exact ⟨hcong.trans h, hbs, hshape⟩

/-- Claim C7: once a kernel handle is stored, every later
`KernelStore.compile` call returns the stored handle unconditionally
(whatever `device_id` it passes) without attempting compilation, so a
sequence of successful masking calls performs exactly one compilation. -/
theorem kernel_cache_compiles_once (env : CudaEnv) (d0 : Nat) (ds : List Nat) (f : Nat)
    (h : (KernelStore.compile env KernelStore.initial d0).result = .ok f) :
    (∀ s g d, s.func = some g → KernelStore.compile env s d = ⟨.ok g, s, false⟩) ∧
    (runCompileCalls env KernelStore.initial (d0 :: ds)).2 = 1 ∧
    (runCompileCalls env KernelStore.initial (d0 :: ds)).1.func = some f := by
  have hcached : ∀ s g d, s.func = some g → KernelStore.compile env s d = ⟨.ok g, s, false⟩ := by
    intro s g d hs
    rw [KernelStore.compile, hs]
  have hstable : ∀ (s : KernelStoreState) (g : Nat), s.func = some g →
      ∀ ds2 : List Nat, runCompileCalls env s ds2 = (s, 0) := by
    intro s g hs ds2
    induction ds2 with
    | nil => rw [runCompileCalls]
    | cons d ds2 ih =>
      rw [runCompileCalls, hcached s g d hs]
      simp [ih]
  rcases hp : compilePipeline env d0 with e | mf
  · rw [KernelStore.compile, KernelStore.initial, hp] at h
    simp at h
  · obtain ⟨m, fn⟩ := mf
    have hout : KernelStore.compile env KernelStore.initial d0 =
        ⟨.ok fn, ⟨some m, some fn⟩, true⟩ := by
      rw [KernelStore.compile, KernelStore.initial, hp]
    have hfn : fn = f := by
      rw [hout] at h
      simpa using h
    rw [hfn] at hout
    refine ⟨hcached, ?_, ?_⟩ <;>
      rw [runCompileCalls, hout] <;>
      simp [hstable ⟨some m, some f⟩ f rfl ds]

/-- Claim C9: if any step of `KernelStore.compile` fails, the cache state
is unchanged — from the initial state, `_module` and `_func` are still
`None` — so a subsequent call attempts compilation again instead of
returning a partially initialized handle. -/
theorem compile_failure_cache_unchanged (env : CudaEnv) (s : KernelStoreState) (d : Nat)
    (e : String) (h : (KernelStore.compile env s d).result = .error e) :
    (KernelStore.compile env s d).state = s ∧
    (s = KernelStore.initial →
      ((KernelStore.compile env s d).state.module = none ∧
        (KernelStore.compile env s d).state.func = none ∧
        ∀ env2 d2,
          (KernelStore.compile env2 (KernelStore.compile env s d).state d2).attempted = true)) := by
  have hstate : (KernelStore.compile env s d).state = s := by
    rcases hf : s.func with - | g
    · rw [KernelStore.compile, hf]
      rcases hp : compilePipeline env d with e2 | mf
      · rfl
      · exfalso
        rw [KernelStore.compile, hf, hp] at h
        obtain ⟨m, fn⟩ := mf
        simp at h
    · rw [KernelStore.compile, hf] at h
      simp at h
  refine ⟨hstate, ?_⟩
  rintro rfl
  rw [hstate]
  refine ⟨rfl, rfl, ?_⟩
  intro env2 d2
  rw [KernelStore.compile, KernelStore.initial]
  rcases hp : compilePipeline env2 d2 with e2 | ⟨m, fn⟩ <;> rfl

/-- Witness for C2: float16 logits are rejected with no device calls and
unchanged logits. -/
theorem invalid_input_witness :
    (∃ e, apply_token_bitmask_inplace true
        ⟨[4], DType.float16, true, 0, 0⟩ ⟨[1], DType.int32, true, 64, 0⟩ = .error e) ∧
    deviceTrace true ⟨[4], DType.float16, true, 0, 0⟩ ⟨[1], DType.int32, true, 64, 0⟩ = [] ∧
    finalLogits true ⟨[4], DType.float16, true, 0, 0⟩ ⟨[1], DType.int32, true, 64, 0⟩
        [F32.finite 1] [0] = [F32.finite 1] :=
  invalid_input_no_device_interaction true ⟨[4], DType.float16, true, 0, 0⟩
    ⟨[1], DType.int32, true, 64, 0⟩ [F32.finite 1] [0] (Or.inr (Or.inl (by decide)))

/-- Witness for C6: shapes `[3]` and `[1, 3]` give identical results on a
concrete buffer. -/
theorem rank1_rank2_witness :
    apply_token_bitmask_inplace_run true ⟨[3], DType.float32, true, 0, 0⟩
        ⟨[1], DType.int32, true, 64, 0⟩ [F32.finite 1, F32.finite 2, F32.finite 3] [5] =
      apply_token_bitmask_inplace_run true ⟨[1, 3], DType.float32, true, 0, 0⟩
        ⟨[1], DType.int32, true, 64, 0⟩ [F32.finite 1, F32.finite 2, F32.finite 3] [5] :=
  rank1_rank2_same_result true 3 ⟨[3], DType.float32, true, 0, 0⟩
    ⟨[1, 3], DType.float32, true, 0, 0⟩ ⟨[1], DType.int32, true, 64, 0⟩
    rfl rfl rfl rfl rfl rfl [F32.finite 1, F32.finite 2, F32.finite 3] [5]

/-- Witness for C7: with an all-success environment, three calls on
devices 0, 1, 2 attempt exactly one compilation and end with the handle
cached. -/
theorem kernel_cache_witness :
    (∀ s g d, s.func = some g → KernelStore.compile envAllOk s d = ⟨.ok g, s, false⟩) ∧
    (runCompileCalls envAllOk KernelStore.initial (0 :: [1, 2])).2 = 1 ∧
    (runCompileCalls envAllOk KernelStore.initial (0 :: [1, 2])).1.func = some 7 :=
  kernel_cache_compiles_once envAllOk 0 [1, 2] 7 (by rfl)

/-- Witness for C8: the plan for `batch = 2`, `vocab_size = 40`. -/
theorem launch_plan_witness :
    (2 : Nat) = (40 + 32 - 1) / 32 ∧
    ((40 : Nat) ≤ 32 * 2 ∧ (32 : Nat) * 2 < 40 + 32) ∧
    ((1 : Nat), (1 : Nat), (1 : Nat)) = ((2 * 2 + 512 - 1) / 512, 1, 1) ∧
    ((2 : Nat) * 2 ≤ 512 * 1 ∧ (512 : Nat) * 1 < 2 * 2 + 512) ∧
    ((512 : Nat), (1 : Nat), (1 : Nat)) = ((512 : Nat), 1, 1) ∧
    [KernelArg.c_void_p 0, KernelArg.c_void_p 4096,
      KernelArg.c_int32 (c_int32_wrap 40), KernelArg.c_int64 (c_int64_wrap 4),
      KernelArg.c_int32 (c_int32_wrap 2)] =
    [KernelArg.c_void_p 0, KernelArg.c_void_p 4096,
      KernelArg.c_int32 (c_int32_wrap 40), KernelArg.c_int64 (c_int64_wrap 4),
      KernelArg.c_int32 (c_int32_wrap 2)] :=
  launch_plan_derivation true ⟨[2, 40], DType.float32, true, 0, 0⟩
    ⟨[2, 2], DType.int32, true, 4096, 0⟩
    ⟨2, 40, 2, (1, 1, 1), (512, 1, 1),
      [KernelArg.c_void_p 0, KernelArg.c_void_p 4096,
        KernelArg.c_int32 (c_int32_wrap 40), KernelArg.c_int64 (c_int64_wrap 4),
        KernelArg.c_int32 (c_int32_wrap 2)], 0⟩ (by rfl)

/-- Witness for C9: a failing first API step leaves the cache empty and a
retry goes past the cache check again. -/
theorem compile_failure_witness :
    (KernelStore.compile envCreateFail KernelStore.initial 0).state = KernelStore.initial ∧
    (KernelStore.initial = KernelStore.initial →
      ((KernelStore.compile envCreateFail KernelStore.initial 0).state.module = none ∧
        (KernelStore.compile envCreateFail KernelStore.initial 0).state.func = none ∧
        ∀ env2 d2, (KernelStore.compile env2
          (KernelStore.compile envCreateFail KernelStore.initial 0).state d2).attempted =
            true)) :=
  compile_failure_cache_unchanged envCreateFail KernelStore.initial 0
    ("nvrtcCreateProgram failed") (by rfl)

/-- Witness for C10: a wildly mis-shaped bitmask `[999, 7]` passes
validation and produces the identical plan. -/
theorem bitmask_shape_witness :
    apply_token_bitmask_inplace true ⟨[2, 5], DType.float32, true, 0, 0⟩
        ⟨[999, 7], DType.int32, true, 64, 0⟩ =
      .ok ⟨2, 5, 1, (1, 1, 1), (512, 1, 1),
        [KernelArg.c_void_p 0, KernelArg.c_void_p 64, KernelArg.c_int32 (c_int32_wrap 5),
          KernelArg.c_int64 (c_int64_wrap 2), KernelArg.c_int32 (c_int32_wrap 1)], 0⟩ ∧
    (1 : Nat) = (5 + 31) / 32 ∧
    (([2, 5] : List Nat) = [2, 5] ∨ (([2, 5] : List Nat) = [5] ∧ (2 : Nat) = 1)) :=
  bitmask_shape_not_validated true ⟨[2, 5], DType.float32, true, 0, 0⟩
    ⟨[2, 1], DType.int32, true, 64, 0⟩ ⟨[999, 7], DType.int32, true, 64, 0⟩
    ⟨2, 5, 1, (1, 1, 1), (512, 1, 1),
      [KernelArg.c_void_p 0, KernelArg.c_void_p 64, KernelArg.c_int32 (c_int32_wrap 5),
        KernelArg.c_int64 (c_int64_wrap 2), KernelArg.c_int32 (c_int32_wrap 1)], 0⟩
    (by rfl) rfl rfl rfl

end XGrammar
